import Mathlib

/-!
Verification development for the Diesel-cycle thermodynamic simulator.

The object-oriented variant (`Diesel_Cycle_simulator_v2.py`) is embedded as
a structure `DieselCycleSimulator` holding the four constructor parameters,
with the volumes derived in `__init__` embedded as functions of the
structure, and the methods `instantaneous_volume`, `ideal_diesel_cycle`,
`generate_pv_diagram` and `calculate_efficiency` embedded as functions.
Python floats are modelled as real numbers; the float power operator `**`
is modelled by `Real.rpow` (for real exponents) or `^` on naturals (for the
literal exponent 2); `np.sqrt` by `Real.sqrt`; `np.linspace`, `np.full` and
`np.full_like` by explicit lists.  The procedural variant
(`Diesel_Cycle_simulator.py`) contributes the free function `volume`.
-/

/-- Constructor parameters of `DieselCycleSimulator.__init__`
(`bore`, `stroke`, `connecting_rod_length`, `compression_ratio`). -/
structure DieselCycleSimulator where
  bore : ℝ
  stroke : ℝ
  connecting_rod_length : ℝ
  compression_ratio : ℝ

/-- `self.swept_volume = (np.pi/4) * bore**2 * stroke` (computed in `__init__`). -/
noncomputable def swept_volume (e : DieselCycleSimulator) : ℝ :=
  (Real.pi / 4) * e.bore ^ 2 * e.stroke

/-- `self.clearance_volume = self.swept_volume / (compression_ratio - 1)`
(computed in `__init__`). -/
noncomputable def clearance_volume (e : DieselCycleSimulator) : ℝ :=
  swept_volume e / (e.compression_ratio - 1)

/-- `self.total_volume = self.swept_volume + self.clearance_volume`
(computed in `__init__`). -/
noncomputable def total_volume (e : DieselCycleSimulator) : ℝ :=
  swept_volume e + clearance_volume e

/-- `DieselCycleSimulator.instantaneous_volume(crank_angle)`:
slider-crank kinematics, `R = stroke/2`,
`x = R*cos(θ) + sqrt(rod**2 - (R*sin θ)**2)`, `h = rod + R - x`,
result `clearance_volume + (π/4)*bore**2*h`. -/
noncomputable def instantaneous_volume (e : DieselCycleSimulator)
    (crank_angle : ℝ) : ℝ :=
  let R := e.stroke / 2
  let x := R * Real.cos crank_angle +
    Real.sqrt (e.connecting_rod_length ^ 2 - (R * Real.sin crank_angle) ^ 2)
  let h := e.connecting_rod_length + R - x
  clearance_volume e + (Real.pi / 4) * e.bore ^ 2 * h

/-- One entry of the `states` dictionary: pressure `p`, volume `v`,
temperature `T`. -/
structure ThermoState where
  p : ℝ
  v : ℝ
  T : ℝ

/-- The dictionary returned by `ideal_diesel_cycle`: the four state points
(keys 1..4 become fields `s1`..`s4`), `gamma` and `compression_ratio`. -/
structure CycleResult where
  s1 : ThermoState
  s2 : ThermoState
  s3 : ThermoState
  s4 : ThermoState
  gamma : ℝ
  compression_ratio : ℝ

/-- `DieselCycleSimulator.ideal_diesel_cycle(p1, T1, T3, gamma)`: the four
state points computed exactly as in the source, with no input validation. -/
noncomputable def ideal_diesel_cycle (e : DieselCycleSimulator)
    (p1 T1 T3 gamma : ℝ) : CycleResult :=
  let v1 := total_volume e
  let v2 := clearance_volume e
  let p2 := p1 * e.compression_ratio ^ gamma
  let T2 := T1 * e.compression_ratio ^ (gamma - 1)
  let p3 := p2
  let v3 := v2 * T3 / T2
  let v4 := v1
  let p4 := p3 * (v3 / v4) ^ gamma
  let T4 := T3 * (v3 / v4) ^ (gamma - 1)
  { s1 := ⟨p1, v1, T1⟩
    s2 := ⟨p2, v2, T2⟩
    s3 := ⟨p3, v3, T3⟩
    s4 := ⟨p4, v4, T4⟩
    gamma := gamma
    compression_ratio := e.compression_ratio }

/-- `np.linspace(a, b, n)` with `endpoint=True`: `n` samples
`a + i*(b-a)/(n-1)`.  For `n = 1` this yields `[a]` (the `i = 0` term, the
division by zero contributing nothing) and for `n = 0` the empty list,
matching numpy. -/
noncomputable def linspace (a b : ℝ) (n : ℕ) : List ℝ :=
  (List.range n).map (fun (i : ℕ) => a + (i : ℝ) * (b - a) / ((n : ℝ) - 1))

/-- One value of the dictionary returned by `generate_pv_diagram`: a
`(volume, pressure)` pair of arrays. -/
structure ProcessCurve where
  volume : List ℝ
  pressure : List ℝ

/-- The dictionary returned by `generate_pv_diagram`, one curve per key. -/
structure PVDiagram where
  compression : ProcessCurve
  heat_addition : ProcessCurve
  expansion : ProcessCurve
  heat_rejection : ProcessCurve

/-- `DieselCycleSimulator.generate_pv_diagram(cycle_data, n_points)`:
per-process sampled curves, computed exactly as in the source with no
validation of `n_points` (`self` is read only through `cycle_data`).
`np.full_like(v, c)` is a map sending every sample to `c`; `np.full(n, c)`
is `List.replicate n c`. -/
noncomputable def generate_pv_diagram (cycle_data : CycleResult)
    (n_points : ℕ) : PVDiagram :=
  let states := cycle_data
  let gamma := cycle_data.gamma
  let v_12 := linspace states.s1.v states.s2.v n_points
  let p_12 := v_12.map (fun v => states.s1.p * (states.s1.v / v) ^ gamma)
  let v_23 := linspace states.s2.v states.s3.v n_points
  let p_23 := v_23.map (fun _ => states.s2.p)
  let v_34 := linspace states.s3.v states.s4.v n_points
  let p_34 := v_34.map (fun v => states.s3.p * (states.s3.v / v) ^ gamma)
  let v_41 := List.replicate n_points states.s4.v
  let p_41 := linspace states.s4.p states.s1.p n_points
  { compression := ⟨v_12, p_12⟩
    heat_addition := ⟨v_23, p_23⟩
    expansion := ⟨v_34, p_34⟩
    heat_rejection := ⟨v_41, p_41⟩ }

/-- `DieselCycleSimulator.calculate_efficiency(cycle_data)`:
`rho = v3/v2` read from the cycle's states, then
`1 - (1/self.compression_ratio**(γ-1)) * (rho**γ - 1)/(γ*(rho - 1))`,
applied unconditionally (no guard on `rho`). -/
noncomputable def calculate_efficiency (e : DieselCycleSimulator)
    (cycle_data : CycleResult) : ℝ :=
  let gamma := cycle_data.gamma
  let rho := cycle_data.s3.v / cycle_data.s2.v
  1 - (1 / e.compression_ratio ^ (gamma - 1)) * (rho ^ gamma - 1) /
    (gamma * (rho - 1))

/-- The procedural variant's free function
`volume(d, s, l, r, theta)` from `Diesel_Cycle_simulator.py`, embedded
verbatim: note that the parameter `l` and the local `Vc` are computed or
received but never used in the returned expression. -/
noncomputable def volume (d s l r theta : ℝ) : ℝ :=
  let Vs := (Real.pi / 4) * d ^ 2 * s
  let Vc := Vs / (r - 1)
  let term1 := 1 / (r - 1)
  let term2 := 1 + (2 / s) - Real.cos theta
  let term3 := Real.sqrt ((2 / s) ^ 2 + (Real.sin theta) ^ 2)
  Vs * (term1 + 0.5 * (term2 - term3))

/-! ### Shared helper lemmas -/

/-- Positivity of the swept volume for a geometry with positive bore and
stroke. -/
lemma swept_volume_pos (e : DieselCycleSimulator) (hb : 0 < e.bore)
    (hs : 0 < e.stroke) : 0 < swept_volume e := by
  unfold swept_volume
  have := Real.pi_pos
  positivity

/-- Positivity of the clearance volume for a geometry with positive bore and
stroke and compression ratio above one. -/
lemma clearance_volume_pos (e : DieselCycleSimulator) (hb : 0 < e.bore)
    (hs : 0 < e.stroke) (hr : 1 < e.compression_ratio) :
    0 < clearance_volume e := by
  unfold clearance_volume
  exact div_pos (swept_volume_pos e hb hs) (by linarith)

/-- `np.linspace(a, b, n)` always returns `n` samples. -/
lemma linspace_length (a b : ℝ) (n : ℕ) : (linspace a b n).length = n := by
  unfold linspace
  simp only [List.length_map, List.length_range]

/-! ### Claims -/

/-- C1: `ideal_diesel_cycle(p1, T1, T3, gamma)` returns exactly the four
state points `v1 = total_volume`, `v2 = clearance_volume`, `p2 = p1*r^γ`,
`T2 = T1*r^(γ-1)`, `p3 = p2`, `v3 = v2*T3/T2`, `v4 = v1`,
`p4 = p3*(v3/v4)^γ`, `T4 = T3*(v3/v4)^(γ-1)`, for every geometry with
positive bore, stroke and rod length and compression ratio above one and
every `p1 > 0`, `T1 > 0`, `T3 > T1`, `γ > 1`. -/
theorem ideal_diesel_cycle_states (e : DieselCycleSimulator)
    (p1 T1 T3 gamma : ℝ)
    (hb : 0 < e.bore) (hs : 0 < e.stroke)
    (hl : 0 < e.connecting_rod_length) (hr : 1 < e.compression_ratio)
    (hp1 : 0 < p1) (hT1 : 0 < T1) (hT3 : T1 < T3) (hg : 1 < gamma) :
    let c := ideal_diesel_cycle e p1 T1 T3 gamma
    let r := e.compression_ratio
    c.s1.p = p1 ∧ c.s1.v = total_volume e ∧ c.s1.T = T1 ∧
    c.s2.p = p1 * r ^ gamma ∧ c.s2.v = clearance_volume e ∧
    c.s2.T = T1 * r ^ (gamma - 1) ∧
    c.s3.p = c.s2.p ∧ c.s3.v = c.s2.v * T3 / c.s2.T ∧ c.s3.T = T3 ∧
    c.s4.v = c.s1.v ∧ c.s4.p = c.s3.p * (c.s3.v / c.s4.v) ^ gamma ∧
    c.s4.T = T3 * (c.s3.v / c.s4.v) ^ (gamma - 1) :=
  ⟨rfl, rfl, rfl, rfl, rfl, rfl, rfl, rfl, rfl, rfl, rfl, rfl⟩

/-- Witness for C1 at the concrete geometry `(1, 1, 1, 2)` and operating
conditions `p1 = 1`, `T1 = 1`, `T3 = 2`, `γ = 2`. -/
theorem ideal_diesel_cycle_states_witness :
    (0:ℝ) < 1 ∧ (0:ℝ) < 1 ∧ (0:ℝ) < 1 ∧ (1:ℝ) < 2 ∧
    (0:ℝ) < 1 ∧ (0:ℝ) < 1 ∧ (1:ℝ) < 2 ∧ (1:ℝ) < 2 ∧
    (let c := ideal_diesel_cycle ⟨1, 1, 1, 2⟩ 1 1 2 2
     let r := (DieselCycleSimulator.mk 1 1 1 2).compression_ratio
     c.s1.p = 1 ∧ c.s1.v = total_volume ⟨1, 1, 1, 2⟩ ∧ c.s1.T = 1 ∧
     c.s2.p = 1 * r ^ (2:ℝ) ∧ c.s2.v = clearance_volume ⟨1, 1, 1, 2⟩ ∧
     c.s2.T = 1 * r ^ ((2:ℝ) - 1) ∧
     c.s3.p = c.s2.p ∧ c.s3.v = c.s2.v * 2 / c.s2.T ∧ c.s3.T = 2 ∧
     c.s4.v = c.s1.v ∧ c.s4.p = c.s3.p * (c.s3.v / c.s4.v) ^ (2:ℝ) ∧
     c.s4.T = 2 * (c.s3.v / c.s4.v) ^ ((2:ℝ) - 1)) :=
  ⟨by norm_num, by norm_num, by norm_num, by norm_num, by norm_num,
   by norm_num, by norm_num, by norm_num,
   ideal_diesel_cycle_states ⟨1, 1, 1, 2⟩ 1 1 2 2 (by norm_num)
     (by norm_num) (by norm_num) (by norm_num) (by norm_num) (by norm_num)
     (by norm_num) (by norm_num)⟩

/-- C2: on a cycle produced by `ideal_diesel_cycle`, `calculate_efficiency`
returns exactly `1 - (1/r^(γ-1)) * (ρ^γ - 1)/(γ*(ρ - 1))` where
`ρ = v3/v2` is read from states 3 and 2 of the cycle. -/
theorem calculate_efficiency_formula (e : DieselCycleSimulator)
    (p1 T1 T3 gamma : ℝ) :
    let c := ideal_diesel_cycle e p1 T1 T3 gamma
    let rho := c.s3.v / c.s2.v
    calculate_efficiency e c =
      1 - (1 / e.compression_ratio ^ (gamma - 1)) * (rho ^ gamma - 1) /
        (gamma * (rho - 1)) :=
  rfl

/-- C8: for every geometry with positive bore, stroke and rod length and
compression ratio above one, `total_volume / clearance_volume` equals the
compression ratio exactly (hence within any floating tolerance), and being
a function of the constructor parameters alone the identity holds for every
constructed instance. -/
theorem total_div_clearance_eq_compression_ratio (e : DieselCycleSimulator)
    (hb : 0 < e.bore) (hs : 0 < e.stroke)
    (hl : 0 < e.connecting_rod_length) (hr : 1 < e.compression_ratio) :
    total_volume e / clearance_volume e = e.compression_ratio := by
  have hsv : 0 < swept_volume e := swept_volume_pos e hb hs
  have hr1 : e.compression_ratio - 1 ≠ 0 := by linarith
  unfold total_volume clearance_volume
  field_simp
  ring

/-- Witness for C8 at the concrete geometry `(1, 1, 1, 2)`. -/
theorem total_div_clearance_eq_compression_ratio_witness :
    (0:ℝ) < 1 ∧ (0:ℝ) < 1 ∧ (0:ℝ) < 1 ∧ (1:ℝ) < 2 ∧
    total_volume ⟨1, 1, 1, 2⟩ / clearance_volume ⟨1, 1, 1, 2⟩ =
      (DieselCycleSimulator.mk 1 1 1 2).compression_ratio :=
  ⟨by norm_num, by norm_num, by norm_num, by norm_num,
   total_div_clearance_eq_compression_ratio ⟨1, 1, 1, 2⟩ (by norm_num)
     (by norm_num) (by norm_num) (by norm_num)⟩

/-- C10: the procedural variant's `volume(d, s, l, r, theta)` is
independent of the connecting-rod-length argument `l`: any two rod lengths
give the same result at every other input. -/
theorem volume_independent_of_rod_length (d s l l' r theta : ℝ) :
    volume d s l r theta = volume d s l' r theta :=
  rfl

/-- C4 counterexample: at geometry `(1, 1, 1, 2)` with `p1 = 1`, `T1 = 1`,
`T3 = 1`, `γ = 2` we have `T3 ≤ T2` (indeed `T2 = 2`), yet
`ideal_diesel_cycle` raises nothing and returns a result whose cut-off
ratio `v3/v2` is `1/2 ≤ 1`. -/
theorem ideal_diesel_cycle_accepts_low_T3 :
    let c := ideal_diesel_cycle ⟨1, 1, 1, 2⟩ 1 1 1 2
    c.s3.T ≤ c.s2.T ∧ c.s3.v / c.s2.v = 1 / 2 := by
  intro c
  have hT2 : c.s2.T = 2 := by
    show (1:ℝ) * (2:ℝ) ^ ((2:ℝ) - 1) = 2
    rw [show ((2:ℝ) - 1) = 1 by norm_num, Real.rpow_one]
    norm_num
  have hv2 : c.s2.v = Real.pi / 4 := by
    show clearance_volume ⟨1, 1, 1, 2⟩ = Real.pi / 4
    unfold clearance_volume swept_volume
    norm_num
  have hv3 : c.s3.v = Real.pi / 8 := by
    show clearance_volume ⟨1, 1, 1, 2⟩ * 1 /
      ((1:ℝ) * (2:ℝ) ^ ((2:ℝ) - 1)) = Real.pi / 8
    unfold clearance_volume swept_volume
    rw [show ((2:ℝ) - 1) = 1 by norm_num, Real.rpow_one]
    ring_nf
  constructor
  · rw [hT2]
    show (1:ℝ) ≤ 2
    norm_num
  · rw [hv2, hv3]
    rw [div_div_div_comm]
    rw [div_self Real.pi_ne_zero]
    norm_num

/-- C4 amended: `ideal_diesel_cycle` performs no validation of operating
conditions; whenever `T3 ≤ T2 = T1·r^(γ−1)` (with a positive geometry and
`T1 > 0`) it silently returns a result whose cut-off ratio `v3/v2` equals
`T3/T2` and is at most one. -/
theorem ideal_diesel_cycle_cutoff_ratio_le_one (e : DieselCycleSimulator)
    (p1 T1 T3 gamma : ℝ) (hb : 0 < e.bore) (hs : 0 < e.stroke)
    (hr : 1 < e.compression_ratio) (hT1 : 0 < T1)
    (hT : T3 ≤ T1 * e.compression_ratio ^ (gamma - 1)) :
    (ideal_diesel_cycle e p1 T1 T3 gamma).s3.v /
        (ideal_diesel_cycle e p1 T1 T3 gamma).s2.v =
      T3 / (ideal_diesel_cycle e p1 T1 T3 gamma).s2.T ∧
    (ideal_diesel_cycle e p1 T1 T3 gamma).s3.v /
      (ideal_diesel_cycle e p1 T1 T3 gamma).s2.v ≤ 1 := by
  have hv2 : 0 < clearance_volume e := clearance_volume_pos e hb hs hr
  have hT2 : 0 < T1 * e.compression_ratio ^ (gamma - 1) :=
    mul_pos hT1 (Real.rpow_pos_of_pos (by linarith) _)
  have hratio : (ideal_diesel_cycle e p1 T1 T3 gamma).s3.v /
      (ideal_diesel_cycle e p1 T1 T3 gamma).s2.v =
      T3 / (ideal_diesel_cycle e p1 T1 T3 gamma).s2.T := by
    show clearance_volume e * T3 /
        (T1 * e.compression_ratio ^ (gamma - 1)) / clearance_volume e =
      T3 / (T1 * e.compression_ratio ^ (gamma - 1))
    rw [div_div, mul_comm (T1 * e.compression_ratio ^ (gamma - 1))
      (clearance_volume e), mul_comm (clearance_volume e) T3,
      mul_comm T3 (clearance_volume e),
      mul_div_mul_left T3 _ hv2.ne']
  refine ⟨hratio, ?_⟩
  rw [hratio]
  show T3 / (T1 * e.compression_ratio ^ (gamma - 1)) ≤ 1
  exact (div_le_one hT2).mpr hT

/-- Witness for the amended C4 at geometry `(1, 1, 1, 2)`, `p1 = 1`,
`T1 = 1`, `T3 = 1`, `γ = 2`. -/
theorem ideal_diesel_cycle_cutoff_ratio_le_one_witness :
    (0:ℝ) < 1 ∧ (0:ℝ) < 1 ∧ (1:ℝ) < 2 ∧ (0:ℝ) < 1 ∧
    (1:ℝ) ≤ 1 * (2:ℝ) ^ ((2:ℝ) - 1) ∧
    ((ideal_diesel_cycle ⟨1, 1, 1, 2⟩ 1 1 1 2).s3.v /
        (ideal_diesel_cycle ⟨1, 1, 1, 2⟩ 1 1 1 2).s2.v =
      1 / (ideal_diesel_cycle ⟨1, 1, 1, 2⟩ 1 1 1 2).s2.T ∧
     (ideal_diesel_cycle ⟨1, 1, 1, 2⟩ 1 1 1 2).s3.v /
       (ideal_diesel_cycle ⟨1, 1, 1, 2⟩ 1 1 1 2).s2.v ≤ 1) := by
  have hT : (1:ℝ) ≤ 1 * (2:ℝ) ^ ((2:ℝ) - 1) := by
    rw [show ((2:ℝ) - 1) = 1 by norm_num, Real.rpow_one]
    norm_num
  exact ⟨by norm_num, by norm_num, by norm_num, by norm_num, hT,
    ideal_diesel_cycle_cutoff_ratio_le_one ⟨1, 1, 1, 2⟩ 1 1 1 2
      (by norm_num) (by norm_num) (by norm_num) (by norm_num) hT⟩

/-- C5 counterexample: the constructor accepts the inconsistent geometry
`bore = 1`, `stroke = 1`, `rod_length = 2/5 ≤ stroke/2 = 1/2`,
`compression_ratio = 2` without any error: the instance is fully usable,
with well-defined clearance volume `π/4` and total volume `π/2`. -/
theorem init_accepts_short_rod :
    (DieselCycleSimulator.mk 1 1 (2/5) 2).connecting_rod_length ≤
      (DieselCycleSimulator.mk 1 1 (2/5) 2).stroke / 2 ∧
    clearance_volume ⟨1, 1, 2/5, 2⟩ = Real.pi / 4 ∧
    total_volume ⟨1, 1, 2/5, 2⟩ = Real.pi / 2 := by
  refine ⟨by norm_num, ?_, ?_⟩
  · unfold clearance_volume swept_volume
    norm_num
  · unfold total_volume clearance_volume swept_volume
    norm_num
    ring

/-- C5 amended: `__init__` performs no geometry validation; for every
construction input with inconsistent geometry — rod too short for the
crank, non-positive dimensions, or a compression ratio below one — and
compression ratio distinct from one, it silently constructs a usable
instance whose derived volumes satisfy the defining formulas
`clearance = swept/(r − 1)` and `total = swept + clearance`, with no
configuration error reported.  The single excluded input is
`compression_ratio = 1` exactly, where the source's division
`swept/(r − 1)` raises `ZeroDivisionError` — an accidental arithmetic
failure (collapsed by the embedding's total division, so this theorem does
not quantify over it), not a configuration check. -/
theorem init_no_geometry_validation (bore stroke rod r : ℝ) (hr1 : r ≠ 1)
    (h : rod ≤ stroke / 2 ∨ bore ≤ 0 ∨ stroke ≤ 0 ∨ rod ≤ 0 ∨ r < 1) :
    clearance_volume ⟨bore, stroke, rod, r⟩ =
      swept_volume ⟨bore, stroke, rod, r⟩ / (r - 1) ∧
    total_volume ⟨bore, stroke, rod, r⟩ =
      swept_volume ⟨bore, stroke, rod, r⟩ +
        clearance_volume ⟨bore, stroke, rod, r⟩ :=
  ⟨rfl, rfl⟩

/-- Witness for the amended C5 at the inconsistent geometry
`(1, 1, 2/5, 2)` (rod shorter than half the stroke). -/
theorem init_no_geometry_validation_witness :
    (2:ℝ) ≠ 1 ∧
    ((2:ℝ)/5 ≤ 1 / 2 ∨ (1:ℝ) ≤ 0 ∨ (1:ℝ) ≤ 0 ∨ (2:ℝ)/5 ≤ 0 ∨ (2:ℝ) < 1) ∧
    (clearance_volume ⟨1, 1, 2/5, 2⟩ =
      swept_volume ⟨1, 1, 2/5, 2⟩ / (2 - 1) ∧
     total_volume ⟨1, 1, 2/5, 2⟩ =
      swept_volume ⟨1, 1, 2/5, 2⟩ + clearance_volume ⟨1, 1, 2/5, 2⟩) :=
  ⟨by norm_num, Or.inl (by norm_num),
   init_no_geometry_validation 1 1 (2/5) 2 (by norm_num)
     (Or.inl (by norm_num))⟩

/-- C6 counterexample: for `n_points = 1 < 2`, `generate_pv_diagram`
raises nothing and returns curve data: each sequence has length 1, and the
compression curve's volume sequence is the single sample `[v1]`. -/
theorem generate_pv_diagram_accepts_one_point :
    let c : CycleResult := ⟨⟨1, 1, 1⟩, ⟨1, 1, 1⟩, ⟨1, 1, 1⟩, ⟨1, 1, 1⟩, 1, 1⟩
    (1:ℕ) < 2 ∧
    (generate_pv_diagram c 1).compression.volume = [1] ∧
    (generate_pv_diagram c 1).compression.volume.length = 1 ∧
    (generate_pv_diagram c 1).compression.pressure.length = 1 ∧
    (generate_pv_diagram c 1).heat_addition.volume.length = 1 ∧
    (generate_pv_diagram c 1).expansion.volume.length = 1 ∧
    (generate_pv_diagram c 1).heat_rejection.volume.length = 1 ∧
    (generate_pv_diagram c 1).heat_rejection.pressure.length = 1 := by
  intro c
  have h1 : linspace 1 1 1 = [1] := by
    unfold linspace
    rw [show List.range 1 = [0] from rfl]
    norm_num
  refine ⟨by norm_num, h1, ?_, ?_, ?_, ?_, ?_, ?_⟩ <;>
    simp only [generate_pv_diagram, linspace_length, List.length_map,
      List.length_replicate]

/-- C6 amended: `generate_pv_diagram` performs no validation of
`n_points`; for `n_points < 2` (a single point or none) it silently
returns four curves whose volume and pressure sequences all have length
`n_points`, instead of failing. -/
theorem generate_pv_diagram_no_npoints_validation (c : CycleResult)
    (n : ℕ) (h : n < 2) :
    (generate_pv_diagram c n).compression.volume.length = n ∧
    (generate_pv_diagram c n).compression.pressure.length = n ∧
    (generate_pv_diagram c n).heat_addition.volume.length = n ∧
    (generate_pv_diagram c n).heat_addition.pressure.length = n ∧
    (generate_pv_diagram c n).expansion.volume.length = n ∧
    (generate_pv_diagram c n).expansion.pressure.length = n ∧
    (generate_pv_diagram c n).heat_rejection.volume.length = n ∧
    (generate_pv_diagram c n).heat_rejection.pressure.length = n := by
  refine ⟨?_, ?_, ?_, ?_, ?_, ?_, ?_, ?_⟩ <;>
    simp only [generate_pv_diagram, linspace_length, List.length_map,
      List.length_replicate]

/-- Witness for the amended C6 at a concrete cycle and `n_points = 1`. -/
theorem generate_pv_diagram_no_npoints_validation_witness :
    (1:ℕ) < 2 ∧
    (let c : CycleResult := ⟨⟨1, 1, 1⟩, ⟨1, 1, 1⟩, ⟨1, 1, 1⟩, ⟨1, 1, 1⟩, 1, 1⟩
     (generate_pv_diagram c 1).compression.volume.length = 1 ∧
     (generate_pv_diagram c 1).compression.pressure.length = 1 ∧
     (generate_pv_diagram c 1).heat_addition.volume.length = 1 ∧
     (generate_pv_diagram c 1).heat_addition.pressure.length = 1 ∧
     (generate_pv_diagram c 1).expansion.volume.length = 1 ∧
     (generate_pv_diagram c 1).expansion.pressure.length = 1 ∧
     (generate_pv_diagram c 1).heat_rejection.volume.length = 1 ∧
     (generate_pv_diagram c 1).heat_rejection.pressure.length = 1) :=
  ⟨by norm_num,
   generate_pv_diagram_no_npoints_validation
     ⟨⟨1, 1, 1⟩, ⟨1, 1, 1⟩, ⟨1, 1, 1⟩, ⟨1, 1, 1⟩, 1, 1⟩ 1 (by norm_num)⟩

/-- C7 counterexample: a cycle with cut-off ratio exactly one is reachable
(geometry `(1, 1, 1, 2)`, `γ = 2`, `T1 = 1`, `T3 = 2 = T2`), and on it
`calculate_efficiency` divides by `ρ − 1 = 0` with no guard: under the
embedding's total division the result is `1`, not the analytic limit
`1 − 1/r^(γ−1) = 1/2` (in the source this division raises
`ZeroDivisionError`), so the 0/0 branch is reachable and unhandled. -/
theorem calculate_efficiency_degenerate_unguarded :
    let e : DieselCycleSimulator := ⟨1, 1, 1, 2⟩
    let c := ideal_diesel_cycle e 1 1 2 2
    c.s3.v / c.s2.v = 1 ∧ calculate_efficiency e c = 1 ∧
    calculate_efficiency e c ≠ 1 - 1 / (2:ℝ) ^ ((2:ℝ) - 1) := by
  intro e c
  have hv2 : c.s2.v = Real.pi / 4 := by
    show clearance_volume ⟨1, 1, 1, 2⟩ = Real.pi / 4
    unfold clearance_volume swept_volume
    norm_num
  have hv3 : c.s3.v = Real.pi / 4 := by
    show clearance_volume ⟨1, 1, 1, 2⟩ * 2 /
      ((1:ℝ) * (2:ℝ) ^ ((2:ℝ) - 1)) = Real.pi / 4
    unfold clearance_volume swept_volume
    rw [show ((2:ℝ) - 1) = 1 by norm_num, Real.rpow_one]
    ring_nf
  have hrho : c.s3.v / c.s2.v = 1 := by
    rw [hv2, hv3]
    exact div_self (by positivity)
  have heff : calculate_efficiency e c = 1 := by
    show 1 - (1 / (2:ℝ) ^ ((2:ℝ) - 1)) * ((c.s3.v / c.s2.v) ^ (2:ℝ) - 1) /
      (2 * (c.s3.v / c.s2.v - 1)) = 1
    rw [hrho]
    rw [Real.one_rpow]
    norm_num
  refine ⟨hrho, heff, ?_⟩
  rw [heff, show ((2:ℝ) - 1) = 1 by norm_num, Real.rpow_one]
  norm_num

/-- C7 amended: `calculate_efficiency` applies the efficiency formula
unconditionally, with no epsilon guard and no limiting branch: for every
cycle with `v3 = v2` (cut-off ratio exactly one, `v2 ≠ 0`) the factor
`(ρ^γ − 1)/(γ·(ρ − 1))` is the unguarded form `0/0` (a raised
`ZeroDivisionError` in the source; the value `0`, hence efficiency `1`,
under the embedding's total division), not the analytic limit. -/
theorem calculate_efficiency_no_degenerate_guard (e : DieselCycleSimulator)
    (c : CycleResult) (hv : c.s3.v = c.s2.v) (h2 : c.s2.v ≠ 0) :
    calculate_efficiency e c = 1 := by
  simp only [calculate_efficiency]
  rw [hv, div_self h2, Real.one_rpow]
  norm_num

/-- Witness for the amended C7 at a concrete cycle with `v3 = v2 = 2`. -/
theorem calculate_efficiency_no_degenerate_guard_witness :
    ((CycleResult.mk ⟨1, 1, 1⟩ ⟨1, 2, 1⟩ ⟨1, 2, 1⟩ ⟨1, 1, 1⟩ 2 2).s3.v =
      (CycleResult.mk ⟨1, 1, 1⟩ ⟨1, 2, 1⟩ ⟨1, 2, 1⟩ ⟨1, 1, 1⟩ 2 2).s2.v) ∧
    ((CycleResult.mk ⟨1, 1, 1⟩ ⟨1, 2, 1⟩ ⟨1, 2, 1⟩ ⟨1, 1, 1⟩ 2 2).s2.v ≠ 0) ∧
    calculate_efficiency ⟨1, 1, 1, 2⟩
      ⟨⟨1, 1, 1⟩, ⟨1, 2, 1⟩, ⟨1, 2, 1⟩, ⟨1, 1, 1⟩, 2, 2⟩ = 1 :=
  ⟨rfl, by norm_num,
   calculate_efficiency_no_degenerate_guard ⟨1, 1, 1, 2⟩
     ⟨⟨1, 1, 1⟩, ⟨1, 2, 1⟩, ⟨1, 2, 1⟩, ⟨1, 1, 1⟩, 2, 2⟩ rfl (by norm_num)⟩

/-- First sample of `np.linspace(a, b, n)` is `a` (for `n ≥ 1`). -/
lemma linspace_getElem_zero (a b : ℝ) (n : ℕ) (hn : 0 < n) :
    (linspace a b n)[0]? = some a := by
  unfold linspace
  rw [List.getElem?_map, List.getElem?_range hn]
  norm_num

/-- Last sample of `np.linspace(a, b, n)` is `b` (for `n ≥ 2`). -/
lemma linspace_getElem_last (a b : ℝ) (n : ℕ) (hn : 2 ≤ n) :
    (linspace a b n)[n-1]? = some b := by
  unfold linspace
  have h1 : n - 1 < n := by omega
  rw [List.getElem?_map, List.getElem?_range h1]
  have h2 : ((n - 1 : ℕ) : ℝ) = (n : ℝ) - 1 := by
    rw [Nat.cast_sub (by omega)]
    norm_num
  have h3 : (n : ℝ) - 1 ≠ 0 := by
    have : (2:ℝ) ≤ (n : ℝ) := by exact_mod_cast hn
    linarith
  simp only [Option.map_some']
  rw [h2]
  congr 1
  field_simp

/-- C3: on a valid cycle and `n_points ≥ 2`, `generate_pv_diagram` returns
four named curves of equal length `n_points`: compression sampled linearly
`v1 → v2` with pressure `p1·(v1/v)^γ` per sample, heat addition sampled
linearly `v2 → v3` at constant pressure `p2`, expansion sampled linearly
`v3 → v4` with pressure `p3·(v3/v)^γ` per sample, heat rejection holding
volume at `v4` with pressure sampled linearly `p4 → p1`; in particular the
expansion curve starts exactly at `(v3, p3)` and ends exactly at
`(v4, p4)`. -/
theorem generate_pv_diagram_curves (e : DieselCycleSimulator)
    (p1 T1 T3 gamma : ℝ) (n : ℕ) (hn : 2 ≤ n)
    (hb : 0 < e.bore) (hs : 0 < e.stroke)
    (hl : 0 < e.connecting_rod_length) (hr : 1 < e.compression_ratio)
    (hp1 : 0 < p1) (hT1 : 0 < T1) (hT3 : T1 < T3) (hg : 1 < gamma) :
    let c := ideal_diesel_cycle e p1 T1 T3 gamma
    let d := generate_pv_diagram c n
    (d.compression.volume.length = n ∧ d.compression.pressure.length = n ∧
     d.heat_addition.volume.length = n ∧
     d.heat_addition.pressure.length = n ∧
     d.expansion.volume.length = n ∧ d.expansion.pressure.length = n ∧
     d.heat_rejection.volume.length = n ∧
     d.heat_rejection.pressure.length = n) ∧
    (d.compression.volume = linspace c.s1.v c.s2.v n ∧
     d.compression.pressure =
       d.compression.volume.map (fun v => c.s1.p * (c.s1.v / v) ^ gamma)) ∧
    (d.heat_addition.volume = linspace c.s2.v c.s3.v n ∧
     ∀ p ∈ d.heat_addition.pressure, p = c.s2.p) ∧
    (d.expansion.volume = linspace c.s3.v c.s4.v n ∧
     d.expansion.pressure =
       d.expansion.volume.map (fun v => c.s3.p * (c.s3.v / v) ^ gamma)) ∧
    (d.heat_rejection.volume = List.replicate n c.s4.v ∧
     d.heat_rejection.pressure = linspace c.s4.p c.s1.p n) ∧
    (d.expansion.volume[0]? = some c.s3.v ∧
     d.expansion.pressure[0]? = some c.s3.p ∧
     d.expansion.volume[n-1]? = some c.s4.v ∧
     d.expansion.pressure[n-1]? = some c.s4.p) := by
  intro c d
  have hv3 : 0 < c.s3.v := by
    show 0 < clearance_volume e * T3 /
      (T1 * e.compression_ratio ^ (gamma - 1))
    have h1 := clearance_volume_pos e hb hs hr
    have h2 : 0 < T1 * e.compression_ratio ^ (gamma - 1) :=
      mul_pos hT1 (Real.rpow_pos_of_pos (by linarith) _)
    exact div_pos (mul_pos h1 (by linarith)) h2
  refine ⟨⟨?_, ?_, ?_, ?_, ?_, ?_, ?_, ?_⟩, ⟨rfl, rfl⟩, ⟨rfl, ?_⟩,
    ⟨rfl, rfl⟩, ⟨rfl, rfl⟩, ?_, ?_, ?_, ?_⟩
  · exact linspace_length c.s1.v c.s2.v n
  · show ((linspace c.s1.v c.s2.v n).map _).length = n
    rw [List.length_map]
    exact linspace_length c.s1.v c.s2.v n
  · exact linspace_length c.s2.v c.s3.v n
  · show ((linspace c.s2.v c.s3.v n).map _).length = n
    rw [List.length_map]
    exact linspace_length c.s2.v c.s3.v n
  · exact linspace_length c.s3.v c.s4.v n
  · show ((linspace c.s3.v c.s4.v n).map _).length = n
    rw [List.length_map]
    exact linspace_length c.s3.v c.s4.v n
  · exact List.length_replicate n c.s4.v
  · exact linspace_length c.s4.p c.s1.p n
  · show ∀ p ∈ (linspace c.s2.v c.s3.v n).map (fun _ => c.s2.p), p = c.s2.p
    intro p hp
    obtain ⟨v, hv, h⟩ := List.mem_map.mp hp
    exact h.symm
  · show (linspace c.s3.v c.s4.v n)[0]? = some c.s3.v
    exact linspace_getElem_zero c.s3.v c.s4.v n (by omega)
  · show ((linspace c.s3.v c.s4.v n).map
      (fun v => c.s3.p * (c.s3.v / v) ^ gamma))[0]? = some c.s3.p
    rw [List.getElem?_map, linspace_getElem_zero c.s3.v c.s4.v n (by omega)]
    simp only [Option.map_some']
    rw [div_self hv3.ne', Real.one_rpow, mul_one]
  · show (linspace c.s3.v c.s4.v n)[n-1]? = some c.s4.v
    exact linspace_getElem_last c.s3.v c.s4.v n hn
  · show ((linspace c.s3.v c.s4.v n).map
      (fun v => c.s3.p * (c.s3.v / v) ^ gamma))[n-1]? = some c.s4.p
    rw [List.getElem?_map, linspace_getElem_last c.s3.v c.s4.v n hn]
    rfl

/-- Witness for C3 at geometry `(1, 1, 1, 2)`, `p1 = 1`, `T1 = 1`,
`T3 = 2`, `γ = 2`, `n_points = 2`. -/
theorem generate_pv_diagram_curves_witness :
    (2:ℕ) ≤ 2 ∧ (0:ℝ) < 1 ∧ (0:ℝ) < 1 ∧ (0:ℝ) < 1 ∧ (1:ℝ) < 2 ∧
    (0:ℝ) < 1 ∧ (0:ℝ) < 1 ∧ (1:ℝ) < 2 ∧ (1:ℝ) < 2 ∧
    (let c := ideal_diesel_cycle ⟨1, 1, 1, 2⟩ 1 1 2 2
     let d := generate_pv_diagram c 2
     (d.compression.volume.length = 2 ∧ d.compression.pressure.length = 2 ∧
      d.heat_addition.volume.length = 2 ∧
      d.heat_addition.pressure.length = 2 ∧
      d.expansion.volume.length = 2 ∧ d.expansion.pressure.length = 2 ∧
      d.heat_rejection.volume.length = 2 ∧
      d.heat_rejection.pressure.length = 2) ∧
     (d.compression.volume = linspace c.s1.v c.s2.v 2 ∧
      d.compression.pressure =
        d.compression.volume.map
          (fun v => c.s1.p * (c.s1.v / v) ^ (2:ℝ))) ∧
     (d.heat_addition.volume = linspace c.s2.v c.s3.v 2 ∧
      ∀ p ∈ d.heat_addition.pressure, p = c.s2.p) ∧
     (d.expansion.volume = linspace c.s3.v c.s4.v 2 ∧
      d.expansion.pressure =
        d.expansion.volume.map
          (fun v => c.s3.p * (c.s3.v / v) ^ (2:ℝ))) ∧
     (d.heat_rejection.volume = List.replicate 2 c.s4.v ∧
      d.heat_rejection.pressure = linspace c.s4.p c.s1.p 2) ∧
     (d.expansion.volume[0]? = some c.s3.v ∧
      d.expansion.pressure[0]? = some c.s3.p ∧
      d.expansion.volume[2-1]? = some c.s4.v ∧
      d.expansion.pressure[2-1]? = some c.s4.p)) :=
  ⟨by norm_num, by norm_num, by norm_num, by norm_num, by norm_num,
   by norm_num, by norm_num, by norm_num, by norm_num,
   generate_pv_diagram_curves ⟨1, 1, 1, 2⟩ 1 1 2 2 2 (by norm_num)
     (by norm_num) (by norm_num) (by norm_num) (by norm_num) (by norm_num)
     (by norm_num) (by norm_num) (by norm_num)⟩

/-- Monotonicity of the slider-crank pin position in the cosine of the
crank angle: for crank radius `R ≥ 0` and `A = rod² − R² ≥ 0`, the map
`c ↦ R·c + sqrt(A + R²·c²)` is monotone. -/
lemma slider_term_mono {R A c₂ c₁ : ℝ} (hR : 0 ≤ R) (hA : 0 ≤ A)
    (h : c₂ ≤ c₁) :
    R * c₂ + Real.sqrt (A + R^2 * c₂^2) ≤
      R * c₁ + Real.sqrt (A + R^2 * c₁^2) := by
  have hs1 : (0:ℝ) ≤ A + R^2 * c₁^2 := by positivity
  have hsq1 := Real.sq_sqrt hs1
  have hnn1 := Real.sqrt_nonneg (A + R^2 * c₁^2)
  have hb1 : -(R * c₁) ≤ Real.sqrt (A + R^2 * c₁^2) := by
    have habs : |R * c₁| ≤ Real.sqrt (A + R^2 * c₁^2) := by
      rw [← Real.sqrt_sq_eq_abs]
      apply Real.sqrt_le_sqrt
      nlinarith
    linarith [neg_abs_le (R * c₁)]
  have hRc : 0 ≤ R * (c₁ - c₂) := mul_nonneg hR (by linarith)
  have hy : 0 ≤ R * (c₁ - c₂) + Real.sqrt (A + R^2 * c₁^2) := by linarith
  have key : Real.sqrt (A + R^2 * c₂^2) ≤
      R * (c₁ - c₂) + Real.sqrt (A + R^2 * c₁^2) := by
    rw [Real.sqrt_le_iff]
    refine ⟨hy, ?_⟩
    have hmul : 2 * (R * (c₁ - c₂)) * (-(R * c₁)) ≤
        2 * (R * (c₁ - c₂)) * Real.sqrt (A + R^2 * c₁^2) :=
      mul_le_mul_of_nonneg_left hb1 (by linarith)
    nlinarith [hsq1, hmul]
  linarith

/-- C9: for a geometry with positive bore and stroke and
`rod_length > stroke/2`, `instantaneous_volume` is monotonically
non-decreasing over crank angles in `[0, π]`, with
`instantaneous_volume(0) = clearance_volume` and
`instantaneous_volume(π) = total_volume` exactly (hence within any
tolerance). -/
theorem instantaneous_volume_mono_endpoints (e : DieselCycleSimulator)
    (hb : 0 < e.bore) (hs : 0 < e.stroke)
    (hrod : e.stroke / 2 < e.connecting_rod_length)
    (θ₁ θ₂ : ℝ) (h0 : 0 ≤ θ₁) (h12 : θ₁ ≤ θ₂) (hpi : θ₂ ≤ Real.pi) :
    instantaneous_volume e θ₁ ≤ instantaneous_volume e θ₂ ∧
    instantaneous_volume e 0 = clearance_volume e ∧
    instantaneous_volume e Real.pi = total_volume e := by
  have hR0 : 0 ≤ e.stroke / 2 := by linarith
  have hl0 : 0 ≤ e.connecting_rod_length := by linarith
  have hA : 0 ≤ e.connecting_rod_length ^ 2 - (e.stroke / 2) ^ 2 := by
    nlinarith
  have harg : ∀ θ : ℝ,
      e.connecting_rod_length ^ 2 - (e.stroke / 2 * Real.sin θ) ^ 2 =
      (e.connecting_rod_length ^ 2 - (e.stroke / 2) ^ 2) +
        (e.stroke / 2) ^ 2 * (Real.cos θ) ^ 2 := by
    intro θ
    have := Real.sin_sq_add_cos_sq θ
    nlinarith
  refine ⟨?_, ?_, ?_⟩
  · have hcos : Real.cos θ₂ ≤ Real.cos θ₁ :=
      Real.cos_le_cos_of_nonneg_of_le_pi h0 hpi h12
    have key := slider_term_mono hR0 hA hcos
    show clearance_volume e + (Real.pi / 4) * e.bore ^ 2 *
        (e.connecting_rod_length + e.stroke / 2 -
          (e.stroke / 2 * Real.cos θ₁ +
            Real.sqrt (e.connecting_rod_length ^ 2 -
              (e.stroke / 2 * Real.sin θ₁) ^ 2))) ≤
      clearance_volume e + (Real.pi / 4) * e.bore ^ 2 *
        (e.connecting_rod_length + e.stroke / 2 -
          (e.stroke / 2 * Real.cos θ₂ +
            Real.sqrt (e.connecting_rod_length ^ 2 -
              (e.stroke / 2 * Real.sin θ₂) ^ 2)))
    rw [harg θ₁, harg θ₂]
    have hK : 0 ≤ (Real.pi / 4) * e.bore ^ 2 := by positivity
    have hsub : e.connecting_rod_length + e.stroke / 2 -
        (e.stroke / 2 * Real.cos θ₁ +
          Real.sqrt ((e.connecting_rod_length ^ 2 - (e.stroke / 2) ^ 2) +
            (e.stroke / 2) ^ 2 * (Real.cos θ₁) ^ 2)) ≤
      e.connecting_rod_length + e.stroke / 2 -
        (e.stroke / 2 * Real.cos θ₂ +
          Real.sqrt ((e.connecting_rod_length ^ 2 - (e.stroke / 2) ^ 2) +
            (e.stroke / 2) ^ 2 * (Real.cos θ₂) ^ 2)) := by
      linarith [key]
    nlinarith [mul_le_mul_of_nonneg_left hsub hK]
  · show clearance_volume e + (Real.pi / 4) * e.bore ^ 2 *
        (e.connecting_rod_length + e.stroke / 2 -
          (e.stroke / 2 * Real.cos 0 +
            Real.sqrt (e.connecting_rod_length ^ 2 -
              (e.stroke / 2 * Real.sin 0) ^ 2))) = clearance_volume e
    rw [Real.cos_zero, Real.sin_zero]
    rw [show e.connecting_rod_length ^ 2 -
        (e.stroke / 2 * (0:ℝ)) ^ 2 = e.connecting_rod_length ^ 2 by ring]
    rw [Real.sqrt_sq hl0]
    ring
  · show clearance_volume e + (Real.pi / 4) * e.bore ^ 2 *
        (e.connecting_rod_length + e.stroke / 2 -
          (e.stroke / 2 * Real.cos Real.pi +
            Real.sqrt (e.connecting_rod_length ^ 2 -
              (e.stroke / 2 * Real.sin Real.pi) ^ 2))) = total_volume e
    rw [Real.cos_pi, Real.sin_pi]
    rw [show e.connecting_rod_length ^ 2 -
        (e.stroke / 2 * (0:ℝ)) ^ 2 = e.connecting_rod_length ^ 2 by ring]
    rw [Real.sqrt_sq hl0]
    unfold total_volume swept_volume
    ring

/-- Witness for C9 at the geometry `(1, 1, 1, 2)` and crank angles
`θ₁ = 0`, `θ₂ = π`. -/
theorem instantaneous_volume_mono_endpoints_witness :
    (0:ℝ) < 1 ∧ (0:ℝ) < 1 ∧ (1:ℝ) / 2 < 1 ∧ (0:ℝ) ≤ 0 ∧
    (0:ℝ) ≤ Real.pi ∧ Real.pi ≤ Real.pi ∧
    (instantaneous_volume ⟨1, 1, 1, 2⟩ 0 ≤
       instantaneous_volume ⟨1, 1, 1, 2⟩ Real.pi ∧
     instantaneous_volume ⟨1, 1, 1, 2⟩ 0 = clearance_volume ⟨1, 1, 1, 2⟩ ∧
     instantaneous_volume ⟨1, 1, 1, 2⟩ Real.pi =
       total_volume ⟨1, 1, 1, 2⟩) :=
  ⟨by norm_num, by norm_num, by norm_num, le_refl 0, Real.pi_pos.le,
   le_refl Real.pi,
   instantaneous_volume_mono_endpoints ⟨1, 1, 1, 2⟩ (by norm_num)
     (by norm_num) (by norm_num) 0 Real.pi (le_refl 0) Real.pi_pos.le
     (le_refl Real.pi)⟩
